import Mathlib

set_option maxRecDepth 8000
set_option maxHeartbeats 1000000

namespace SecUpd

/-! Shallow embedding of `check-security-updates.py` (class `Updates`):
    severity classification of the inventory command's output lines, the
    flat-file patch-date cache, SLA expiration, and Nagios verdict
    aggregation.  A Python `datetime.date` is modelled as an integer day
    number, a `datetime.datetime` as an integer second count.  Input lines
    come from `splitlines()` and therefore contain no newline character. -/

deriving instance DecidableEq for Except

/-- Nagios return codes (source lines 32-36). -/
def OK : Nat := 0

def WARNING : Nat := 1

def CRITICAL : Nat := 2

def UNKNOWN : Nat := 3

/-- Verdict labels, `return_codes` (source line 36). -/
def return_codes : List String := ["OK", "WARNING", "CRITICAL", "UNKNOWN"]

/-- One value column of the cache file.  `update_cache` writes either the
    `strftime("%Y-%m-%d")` rendering of a date or the literal string
    `None` (source lines 310-322); `%Y-%m-%d %H:%M:%S` is the timestamp
    format `clean_cache` tries to parse back (source line 345).  `ymd d`
    stands for the ISO date string of day `d`; `ymdhms s` stands for the
    full timestamp string of the datetime `s` seconds since the epoch. -/
inductive Stored where
  | noneS : Stored
  | ymd : Int → Stored
  | ymdhms : Int → Stored
deriving DecidableEq, Repr

/-- Python `datetime.strptime(v, "%Y-%m-%d").date()` applied to a stored
    value: it succeeds exactly on `%Y-%m-%d` strings; anything else raises
    `ValueError` (a `%Y-%m-%d %H:%M:%S` string leaves unconverted data,
    and the literal `None` does not parse at all). -/
def strpYmd : Stored → Option Int
  | Stored.ymd d => some d
  | _ => none

/-- Python `datetime.strptime(v, "%Y-%m-%d %H:%M:%S")` applied to a stored
    value: it succeeds exactly on full timestamp strings; in particular a
    bare `%Y-%m-%d` date string raises `ValueError`. -/
def strpYmdHms : Stored → Option Int
  | Stored.ymdhms s => some s
  | _ => none

/-- Python string `<=` on the rendered forms of two stored values
    (canonical zero-padded renderings, years 1000-9999): two ISO date
    strings compare chronologically, as do two timestamp strings; a date
    string is a proper prefix of any same-day timestamp string and hence
    smaller; the literal `None` starts with `N`, which sorts above every
    digit-initial date string.  This is the key order used by the
    `sorted(..., reverse=True)` call in `clean_cache` (source line 343). -/
def Stored.keyLe : Stored → Stored → Bool
  | Stored.ymd a, Stored.ymd b => decide (a ≤ b)
  | Stored.ymd a, Stored.ymdhms s => decide (a ≤ Int.fdiv s 86400)
  | Stored.ymdhms s, Stored.ymd b => decide (Int.fdiv s 86400 < b)
  | Stored.ymdhms a, Stored.ymdhms b => decide (a ≤ b)
  | Stored.noneS, Stored.noneS => true
  | Stored.noneS, _ => false
  | _, Stored.noneS => true

/-- Contents of the cache file: delimited two-column rows
    `(identifier, value)` in file order, as `csv.reader` yields them
    (source lines 296-304). -/
abbrev Cache := List (String × Stored)

/-- Updates.check_cache (source lines 294-308): linear scan of the rows in
    file order; at the first row whose key column equals `patch`, the value
    is returned (`"None"` → no date, a `%Y-%m-%d` string → that date); a
    matching row whose value is in any other stored format makes `strptime`
    raise, the bare `except` swallows the exception and the function falls
    through to `(False, None)`.  No matching row also gives `(False, None)`. -/
def check_cache : Cache → String → Bool × Option Int
  | [], _ => (false, none)
  | (k, v) :: rest, patch =>
    if k = patch then
      match v with
      | Stored.noneS => (true, none)
      | Stored.ymd d => (true, some d)
      | Stored.ymdhms _ => (false, none)
    else check_cache rest patch

/-- Updates.update_cache (source lines 310-322): append one row to the
    cache file, the value rendered with `strftime("%Y-%m-%d")` or as the
    literal `None`.  The in-memory model always succeeds; in the source a
    write failure is logged and non-fatal and leaves the file unchanged. -/
def update_cache (cache : Cache) (patch : String) (patch_date : Option Int) : Cache :=
  cache ++ [(patch, match patch_date with
    | some d => Stored.ymd d
    | none => Stored.noneS)]

/-- Assignment `d[k] = v` on a Python dict rendered as an assoc list with
    unique keys in insertion order: an existing key keeps its position and
    receives the new value, a new key is appended at the end. -/
def dictUpsert {α : Type} : List (String × α) → String → α → List (String × α)
  | [], k, v => [(k, v)]
  | kv :: rest, k, v =>
    if kv.1 = k then (k, v) :: rest else kv :: dictUpsert rest k v

/-- Read phase of Updates.clean_cache (source lines 329-336): fold the
    file rows into a dict keyed by identifier, so a later duplicate row
    overwrites the value stored for its key. -/
def readCacheDict (rows : Cache) : Cache :=
  rows.foldl (fun m kv => dictUpsert m kv.1 kv.2) []

/-- Stable descending insertion: `x` is placed after every element whose
    key is `≥` its own, as Python's stable `sorted(..., reverse=True)`
    arranges a later element relative to earlier equal ones. -/
def insDesc (x : String × Stored) : Cache → Cache
  | [] => [x]
  | y :: ys => if Stored.keyLe x.2 y.2 then y :: insDesc x ys else x :: y :: ys

/-- Python `sorted(patches.items(), key=value-string, reverse=True)`
    (source line 343): stable sort, greatest value string first. -/
def cleanSort (rows : Cache) : Cache :=
  rows.foldl (fun acc x => insDesc x acc) []

/-- Updates.clean_cache (source lines 324-357), with `nowSec` standing for
    `datetime.today()`: read the rows into a dict (so the last duplicate
    wins), sort the entries by value string descending, then keep each
    entry whose age `dx = datetime.today() - strptime(value, "%Y-%m-%d
    %H:%M:%S")` satisfies `dx.days < 365`; a `ValueError` from `strptime`
    makes `dx = timedelta(0)`, so such an entry is always kept.  The
    result is the list of rows written back to the file. -/
def clean_cache (nowSec : Int) (rows : Cache) : Cache :=
  (cleanSort (readCacheDict rows)).filter (fun kv =>
    decide ((match strpYmdHms kv.2 with
      | some s => Int.fdiv (nowSec - s) 86400
      | none => 0) < 365))

/-- First-match lookup over an assoc list, in read order. -/
def listLookup {α : Type} : List (String × α) → String → Option α
  | [], _ => none
  | kv :: rest, k => if kv.1 = k then some kv.2 else listLookup rest k

/-- Value of the last row written for `k`, if any. -/
def lastWritten {α : Type} : List (String × α) → String → Option α
  | [], _ => none
  | kv :: rest, k =>
    match lastWritten rest k with
    | some v => some v
    | none => if kv.1 = k then some kv.2 else none

/-- A stored value in the format the cache file is specified to hold and
    that the program itself writes: an ISO date string or the `None`
    sentinel. -/
def storedWf : Stored → Bool
  | Stored.ymdhms _ => false
  | _ => true

/-- Denotation of a well-formed stored value as `check_cache` reads it
    back: the date for a `%Y-%m-%d` string, nothing for the sentinel. -/
def storedDenote : Stored → Option Int
  | Stored.ymd d => some d
  | _ => none

/-- Python regex `\s` whitespace class. -/
def isWs (c : Char) : Bool :=
  c = ' ' || c = '\t' || c = '\n' || c = '\r' || c = '\x0b' || c = '\x0c'

/-- Right half of Python `str.strip()`: drop trailing whitespace. -/
def rstripWs (l : List Char) : List Char :=
  (l.reverse.dropWhile isWs).reverse

/-- Match of `re.match(r"([^\s]+)\s", line)` (source line 239): the line's
    leading maximal run of non-whitespace characters, valid only when it is
    non-empty and a further character follows (which is then whitespace by
    maximality); `m.group(0).strip()` is exactly that run. -/
def firstTok (l : List Char) : Option (List Char) :=
  let t := l.takeWhile (fun c => !isWs c)
  if t.isEmpty then none
  else match l.drop t.length with
    | _ :: _ => some t
    | [] => none

/-- Result of `re.search` for a severity pattern `Marker/Sec.\s*(.*)$`
    (source lines 150, 157, 164, 171), `marker` being the literal part
    `Marker/Sec`: the match starts at the leftmost position where the
    marker occurs followed by at least one character (matched by the
    regex dot, hence not a newline), and `group(0)` runs from there to the
    end of the line, which is the string the bucket key stores. -/
def sevMatch (marker : List Char) : List Char → Option (List Char)
  | [] => none
  | c :: cs =>
    if marker.isPrefixOf (c :: cs) then
      match (c :: cs).drop marker.length with
      | d :: _ => if d ≠ '\n' then some (c :: cs) else sevMatch marker cs
      | [] => sevMatch marker cs
    else sevMatch marker cs

/-- Match test of `re.search(r"/Sec.\s*(kernel.*)", line)` (source line
    135): somewhere in the line, `/Sec` followed by one character (the
    regex dot, not a newline), optional whitespace, then `kernel`.  Since
    `kernel` starts with a non-whitespace character, the backtracking
    `\s*` can only stop at the end of the whitespace run. -/
def kernelMatch : List Char → Bool
  | [] => false
  | c :: cs =>
    (if ("/Sec".toList).isPrefixOf (c :: cs) then
      match (c :: cs).drop 4 with
      | d :: rest => d ≠ '\n' && ("kernel".toList).isPrefixOf (rest.dropWhile isWs)
      | [] => false
    else false) || kernelMatch cs

/-- Match of `re.search(r"\s*(firefox.*|chrom.*)", line)` (source lines
    142-143): it succeeds iff `firefox` or `chrom` occurs anywhere in the
    line (the leading `\s*` can match the empty string).  The returned
    suffix starts at the leftmost such occurrence; `m.group(0)` extends
    from the whitespace run immediately before it to the end of the line,
    so `m.group(0).strip()` equals this suffix with trailing whitespace
    removed. -/
def acFind : List Char → Option (List Char)
  | [] => none
  | c :: cs =>
    if ("firefox".toList).isPrefixOf (c :: cs) || ("chrom".toList).isPrefixOf (c :: cs) then
      some (c :: cs)
    else acFind cs

/-- Literal part of the Critical severity pattern (source line 150). -/
def critMarker : List Char := "Critical/Sec".toList

/-- Literal part of the Important severity pattern (source line 157). -/
def impMarker : List Char := "Important/Sec".toList

/-- Literal part of the Moderate severity pattern (source line 164). -/
def modMarker : List Char := "Moderate/Sec".toList

/-- Literal part of the Low severity pattern (source line 171). -/
def lowMarker : List Char := "Low/Sec".toList

/-- Fixed key prefix `"Critical/Sec.  "` (two spaces) concatenated by the
    always-critical path (source line 146). -/
def acPre : List Char := "Critical/Sec.  ".toList

/-- Outcome of one `subprocess.run(cmd, check=True, timeout=60,
    stdout=PIPE)` call, as the `try/except` ladders distinguish them
    (source lines 115-128 and 251-264): success (with `check=True` the
    recorded returncode is 0), `TimeoutExpired`, `ValueError` (unparseable
    invocation arguments), `FileNotFoundError`, or any other exception
    (including `CalledProcessError`). -/
inductive CmdOutcome (α : Type) where
  | ok : α → CmdOutcome α
  | timeout : CmdOutcome α
  | valueErr : CmdOutcome α
  | notFound : CmdOutcome α
  | otherErr : CmdOutcome α

/-- External world of one run: `today` is `date.today()` as a day number,
    and `detail patch` is the outcome of the detail command
    `yum updateinfo info <patch>`, each of its output lines abstracted to
    the date that the `(Updated|Issued)\s*:\s*<timestamp>` match on it
    yields, if any (source lines 250-272). -/
structure Env where
  today : Int
  detail : String → CmdOutcome (List (Option Int))

/-- One value of a severity bucket dict.  The always-critical path stores
    the string `datetime.today().strftime("%Y-%m-%d")` (source line 146);
    the four SLA paths store the computed expiration `datetime.date`, or
    Python `None` when no date was resolved (source lines 154, 161, 168,
    175). -/
inductive BVal where
  | strD : Int → BVal
  | dateD : Int → BVal
  | noneB : BVal
deriving DecidableEq, Repr

/-- Fields of an `Updates` object (source lines 100-109), together with
    the contents of the cache file it reads and appends to, and an
    instrumentation list `calls` recording each identifier passed to the
    external detail command. -/
structure UpdatesSt where
  rc : Int
  critical : List (String × BVal)
  important : List (String × BVal)
  moderate : List (String × BVal)
  low : List (String × BVal)
  cache : Cache
  nokernel : Bool
  next_patchdate : Option Int
  expired : Bool
  calls : List String
deriving DecidableEq, Repr

/-- Updates.__init__ (source lines 100-109). -/
def Updates.init (cacheRows : Cache) (nk : Bool) : UpdatesSt :=
  { rc := -1, critical := [], important := [], moderate := [], low := [],
    cache := cacheRows, nokernel := nk, next_patchdate := none,
    expired := false, calls := [] }

/-- Date-resolution step of Updates.check_expired (source lines 244-279):
    a cache hit (with a date or with the `None` marker) short-circuits;
    otherwise the detail command runs (recorded in `calls`, setting
    `self.rc` to its returncode 0), its output is scanned for the first
    timestamp line, and the result — the date, or the negative `None`
    marker when no line matched — is appended to the cache.  A command
    failure exits the process as in `run`. -/
def resolveDate (env : Env) (st : UpdatesSt) (patch : String) :
    Except Nat (Option Int × UpdatesSt) :=
  match check_cache st.cache patch with
  | (true, patch_date) => Except.ok (patch_date, st)
  | (false, _) =>
    match env.detail patch with
    | CmdOutcome.ok out =>
      let st1 : UpdatesSt := { st with rc := 0, calls := st.calls ++ [patch] }
      match out.findSome? id with
      | some d => Except.ok (some d, { st1 with cache := update_cache st1.cache patch (some d) })
      | none => Except.ok (none, { st1 with cache := update_cache st1.cache patch none })
    | CmdOutcome.timeout => Except.error UNKNOWN
    | CmdOutcome.valueErr => Except.error UNKNOWN
    | CmdOutcome.notFound => Except.error CRITICAL
    | CmdOutcome.otherErr => Except.error CRITICAL

/-- Updates.check_expired (source lines 234-292): extract the advisory
    identifier (first whitespace-delimited token; a malformed line is
    logged and yields `(False, None)`), resolve its release date, then
    `expiration_date = patch_date + timedelta(days_limit)` and
    `expired = (date.today() >= expiration_date)`; both the expired and
    the not-yet-expired branch return the computed expiration date, and
    an unresolved date returns `(False, None)`. -/
def check_expired (env : Env) (st : UpdatesSt) (line : String) (days_limit : Int) :
    Except Nat (Bool × Option Int × UpdatesSt) :=
  match firstTok line.toList with
  | none => Except.ok (false, none, st)
  | some tok =>
    match resolveDate env st (String.mk tok) with
    | Except.error e => Except.error e
    | Except.ok (pd, st2) =>
      match pd with
      | some d =>
        let xd := d + days_limit
        if env.today ≥ xd then Except.ok (true, some xd, st2)
        else Except.ok (false, some xd, st2)
      | none => Except.ok (false, none, st2)

/-- Bucket entry stored by an SLA path: the expiration date, or `None`. -/
def lineBVal : Option Int → BVal
  | some x => BVal.dateD x
  | none => BVal.noneB

/-- Dict assignment into the Critical bucket (source line 154). -/
def updCrit (st : UpdatesSt) (k : String) (v : BVal) : UpdatesSt :=
  { st with critical := dictUpsert st.critical k v }

/-- Dict assignment into the Important bucket (source line 161). -/
def updImp (st : UpdatesSt) (k : String) (v : BVal) : UpdatesSt :=
  { st with important := dictUpsert st.important k v }

/-- Dict assignment into the Moderate bucket (source line 168). -/
def updMod (st : UpdatesSt) (k : String) (v : BVal) : UpdatesSt :=
  { st with moderate := dictUpsert st.moderate k v }

/-- Dict assignment into the Low bucket (source line 175). -/
def updLow (st : UpdatesSt) (k : String) (v : BVal) : UpdatesSt :=
  { st with low := dictUpsert st.low k v }

/-- One severity `if` block of the line loop (source lines 149-175): when
    the pattern matches, `check_expired` runs and the bucket receives the
    expiration date under the key `m.group(0)`; the line-local pair
    `(expired, expiration_date)` is overwritten by every matching block,
    so only the last matching block's values survive to the loop tail. -/
def sevBlock (env : Env) (line : String) (marker : List Char) (days : Int)
    (upd : UpdatesSt → String → BVal → UpdatesSt)
    (acc : UpdatesSt × Option Bool × Option Int) :
    Except Nat (UpdatesSt × Option Bool × Option Int) :=
  match sevMatch marker line.toList with
  | none => Except.ok acc
  | some g0 =>
    match check_expired env acc.1 line days with
    | Except.error e => Except.error e
    | Except.ok (ex, xd, st2) => Except.ok (upd st2 (String.mk g0) (lineBVal xd), some ex, xd)

/-- Tail of the line loop (source lines 180-185): fold one line's final
    `expiration_date` into the running `next_patchdate` minimum; `None`
    leaves it unchanged. -/
def nextPdUpd (np : Option Int) (xd : Option Int) : Option Int :=
  match xd with
  | none => np
  | some x =>
    match np with
    | none => some x
    | some n => if x < n then some x else some n

/-- Body of the line loop of Updates.run (source lines 130-185): kernel
    lines are discarded first when kernel filtering is on; an
    always-critical line goes straight into the Critical bucket tagged
    with today's date string and skips the rest of the body (`continue`);
    otherwise the four independent severity blocks run in order and the
    loop tail folds the final `(expired, expiration_date)` pair into
    `self.expired` and `self.next_patchdate`.  Returns the new state
    together with the line-final `(expired, expiration_date)` locals. -/
def processLine (env : Env) (st : UpdatesSt) (line : String) :
    Except Nat (UpdatesSt × Option Bool × Option Int) :=
  let cs := line.toList
  if kernelMatch cs && st.nokernel then Except.ok (st, none, none)
  else
    match acFind cs with
    | some g =>
      Except.ok (updCrit st (String.mk (acPre ++ rstripWs g)) (BVal.strD env.today), none, none)
    | none =>
      match sevBlock env line critMarker 30 updCrit (st, none, none) with
      | Except.error e => Except.error e
      | Except.ok a1 =>
      match sevBlock env line impMarker 90 updImp a1 with
      | Except.error e => Except.error e
      | Except.ok a2 =>
      match sevBlock env line modMarker 90 updMod a2 with
      | Except.error e => Except.error e
      | Except.ok a3 =>
      match sevBlock env line lowMarker 90 updLow a3 with
      | Except.error e => Except.error e
      | Except.ok a4 =>
        let st5 := if a4.2.1 = some true then { a4.1 with expired := true } else a4.1
        Except.ok ({ st5 with next_patchdate := nextPdUpd st5.next_patchdate a4.2.2 },
          a4.2.1, a4.2.2)

/-- The line loop of Updates.run over the inventory output; a fatal
    external-command failure inside `check_expired` aborts the loop at
    once with the corresponding exit code. -/
def runLines (env : Env) : UpdatesSt → List String → Except Nat UpdatesSt
  | st, [] => Except.ok st
  | st, line :: rest =>
    match processLine env st line with
    | Except.error e => Except.error e
    | Except.ok (st2, _, _) => runLines env st2 rest

/-- The line loop again, also returning the list of line-final
    `expiration_date` locals, one per processed line, for stating how
    `next_patchdate` is accumulated. -/
def runXds (env : Env) : UpdatesSt → List String → Except Nat (UpdatesSt × List (Option Int))
  | st, [] => Except.ok (st, [])
  | st, line :: rest =>
    match processLine env st line with
    | Except.error e => Except.error e
    | Except.ok (st2, _, xd) =>
      match runXds env st2 rest with
      | Except.error e => Except.error e
      | Except.ok (stF, xds) => Except.ok (stF, xd :: xds)

/-- Updates.run (source lines 111-185): run the inventory command; a
    `TimeoutExpired` or `ValueError` exits with UNKNOWN, a
    `FileNotFoundError` or any other exception exits with CRITICAL
    (source lines 115-128); on success `self.rc` records the returncode
    (0 under `check=True`) and the output lines are processed in order.
    The verbose listing at the end of the source function only logs — or
    raises, which `verboseOut` below models. -/
def Updates.run (env : Env) (inv : CmdOutcome (List String)) (st : UpdatesSt) :
    Except Nat UpdatesSt :=
  match inv with
  | CmdOutcome.ok output => runLines env { st with rc := 0 } output
  | CmdOutcome.timeout => Except.error UNKNOWN
  | CmdOutcome.valueErr => Except.error UNKNOWN
  | CmdOutcome.notFound => Except.error CRITICAL
  | CmdOutcome.otherErr => Except.error CRITICAL

/-- Rendered Nagios output, kept structured: either the bare early-return
    UNKNOWN message (source line 216) or the full report carrying the
    verdict label, the four bucket counts and `next_patch_date` followed
    by the perfdata tail of the same four counts (source lines 223-230). -/
inductive OutputMsg where
  | unknownOnly : OutputMsg
  | report : String → Nat → Nat → Nat → Nat → Option Int → OutputMsg
deriving DecidableEq, Repr

/-- Updates.create_output (source lines 211-232): with no recorded run
    (`self.rc < 0`) return UNKNOWN at once; otherwise start from OK,
    overwrite with WARNING when `self.expired` and some non-Critical
    bucket is non-empty, then overwrite with CRITICAL when the Critical
    bucket is non-empty. -/
def create_output (st : UpdatesSt) : Nat × OutputMsg :=
  if 0 ≤ st.rc then
    let r1 := if st.expired = true ∧
        (0 < st.important.length ∨ 0 < st.moderate.length ∨ 0 < st.low.length)
      then WARNING else OK
    let r2 := if 0 < st.critical.length then CRITICAL else r1
    (r2, OutputMsg.report (return_codes.getD r2 "") st.critical.length
      st.important.length st.moderate.length st.low.length st.next_patchdate)
  else (UNKNOWN, OutputMsg.unknownOnly)

/-- Comparison of two verbose sort keys
    `item[1] if item[1] is not None else datetime.today().date()`
    (source lines 189-207): two date strings compare as dates, two dates
    compare as dates (with `None` replaced by today's date), but a
    comparison between a `str` and a `datetime.date` raises `TypeError`,
    modelled as `Except.error`. -/
def bvalKeyLe (today : Int) : BVal → BVal → Except Unit Bool
  | BVal.strD a, BVal.strD b => Except.ok (decide (a ≤ b))
  | BVal.dateD a, BVal.dateD b => Except.ok (decide (a ≤ b))
  | BVal.dateD a, BVal.noneB => Except.ok (decide (a ≤ today))
  | BVal.noneB, BVal.dateD b => Except.ok (decide (today ≤ b))
  | BVal.noneB, BVal.noneB => Except.ok true
  | _, _ => Except.error ()

/-- Stable insertion step of the verbose `sorted` call; the first key
    comparison that raises aborts the whole call. -/
def insertB (today : Int) (x : String × BVal) :
    List (String × BVal) → Except Unit (List (String × BVal))
  | [] => Except.ok [x]
  | y :: ys =>
    match bvalKeyLe today x.2 y.2 with
    | Except.error e => Except.error e
    | Except.ok b =>
      if b then Except.ok (x :: y :: ys)
      else match insertB today x ys with
        | Except.error e => Except.error e
        | Except.ok r => Except.ok (y :: r)

/-- Python `sorted(bucket.items(), key=...)` as a comparison sort that can
    raise.  A comparison sort of a list holding both a string-keyed and a
    date-keyed entry must establish their relative order through a direct
    comparison of the two kinds somewhere (an order between a `str` key
    and a `date` key cannot be inferred transitively without one mixed
    comparison in the chain), and any such comparison raises `TypeError`;
    a list of uniformly-kinded keys sorts without raising.  The insertion
    sort here has exactly this raising behaviour. -/
def sortB (today : Int) : List (String × BVal) → Except Unit (List (String × BVal))
  | [] => Except.ok []
  | x :: xs =>
    match sortB today xs with
    | Except.error e => Except.error e
    | Except.ok s => insertB today x s

/-- Verbose listing step at the end of Updates.run (source lines 187-209):
    each bucket is sorted in turn; the first `TypeError` propagates out
    uncaught. -/
def verboseOut (today : Int) (st : UpdatesSt) :
    Except Unit (List (String × BVal) × List (String × BVal) ×
      List (String × BVal) × List (String × BVal)) :=
  match sortB today st.critical with
  | Except.error e => Except.error e
  | Except.ok c =>
  match sortB today st.important with
  | Except.error e => Except.error e
  | Except.ok i =>
  match sortB today st.moderate with
  | Except.error e => Except.error e
  | Except.ok m =>
  match sortB today st.low with
  | Except.error e => Except.error e
  | Except.ok l => Except.ok (c, i, m, l)

/-- Kind of a bucket value under the verbose sort key: a string key, or a
    date key (`None` is keyed by today's date, also a date). -/
def isStrB : BVal → Bool
  | BVal.strD _ => true
  | _ => false

/-- Environment with nothing cached reachable and today at day 0. -/
def env0 : Env := { today := 0, detail := fun _ => CmdOutcome.otherErr }

/-- Environment for the multi-severity line scenario, today at day 20000. -/
def env2 : Env := { today := 20000, detail := fun _ => CmdOutcome.otherErr }

/-- Environment for the SLA boundary scenario, today at day 1000. -/
def env1000 : Env := { today := 1000, detail := fun _ => CmdOutcome.otherErr }

/-- Environment whose detail command always times out. -/
def envT : Env := { today := 0, detail := fun _ => CmdOutcome.timeout }

/-- State of the first C1 scenario: run recorded, Critical empty, one
    Important entry, expired flag set. -/
def stWarn : UpdatesSt :=
  { rc := 0, critical := [], important := [("Important/Sec. a", BVal.dateD 5)],
    moderate := [], low := [], cache := [], nokernel := false,
    next_patchdate := some 5, expired := true, calls := [] }

/-- State of the second C1 scenario: as `stWarn` but with a non-empty
    Critical bucket. -/
def stCrit : UpdatesSt :=
  { rc := 0, critical := [("Critical/Sec. b", BVal.dateD 5)],
    important := [("Important/Sec. a", BVal.dateD 5)],
    moderate := [], low := [], cache := [], nokernel := false,
    next_patchdate := some 5, expired := true, calls := [] }

/-- Expected final state of the C7 counterexample run: the Critical bucket
    holds the computed expiration day 19830, but `next_patchdate` reports
    day 19890, the date of the LAST matching severity check. -/
def stC7cex : UpdatesSt :=
  { rc := 0, critical := [("Critical/Sec. aaa Important/Sec. bbb", BVal.dateD 19830)],
    important := [("Important/Sec. bbb", BVal.dateD 19890)], moderate := [], low := [],
    cache := [("RHSA1", Stored.ymd 19800)], nokernel := false,
    next_patchdate := some 19890, expired := true, calls := [] }

/-- Expected final state of the C7 witness run. -/
def stC7w : UpdatesSt :=
  { rc := -1, critical := [], important := [("Important/Sec. foo", BVal.dateD 190)],
    moderate := [], low := [], cache := [("A", Stored.ymd 100)], nokernel := false,
    next_patchdate := some 190, expired := true, calls := [] }

/-- Expected final state of the C3 amended-claim witness. -/
def stC3w : UpdatesSt :=
  { rc := -1, critical := [("Critical/Sec.  firefox-100", BVal.strD 0)],
    important := [], moderate := [], low := [], cache := [("x", Stored.ymd 1)],
    nokernel := true, next_patchdate := none, expired := false, calls := [] }

/-- State of the C9 witness: the Critical bucket holds one always-critical
    entry (a date string) and one SLA entry with a resolved expiration
    date (a date object). -/
def stC9w : UpdatesSt :=
  { rc := 0, critical := [("Critical/Sec.  firefox-1", BVal.strD 0),
      ("Critical/Sec. foo", BVal.dateD 30)],
    important := [], moderate := [], low := [], cache := [], nokernel := false,
    next_patchdate := some 30, expired := false, calls := [] }

lemma listLookup_dictUpsert {α : Type} (m : List (String × α)) (k0 k : String) (v : α) :
    listLookup (dictUpsert m k0 v) k = if k0 = k then some v else listLookup m k := by
  induction m with
  | nil => simp [dictUpsert, listLookup]
  | cons kv rest ih =>
    by_cases h1 : kv.1 = k0
    · simp only [dictUpsert, if_pos h1, listLookup]
      by_cases h2 : k0 = k
      · simp [h2]
      · simp [h2, listLookup, h1.symm ▸ h2]
    · simp only [dictUpsert, if_neg h1, listLookup]
      by_cases h3 : kv.1 = k
      · have h4 : ¬ k0 = k := fun he => h1 (h3.trans he.symm)
        simp [h3, h4]
      · simp [h3, ih]

lemma listLookup_readFold {α : Type} (rows : List (String × α)) (m : List (String × α))
    (k : String) :
    listLookup (rows.foldl (fun acc kv => dictUpsert acc kv.1 kv.2) m) k =
      (match lastWritten rows k with
        | some v => some v
        | none => listLookup m k) := by
  induction rows generalizing m with
  | nil => simp [lastWritten]
  | cons kv rest ih =>
    simp only [List.foldl, lastWritten]
    rw [ih]
    cases h : lastWritten rest k with
    | some v => rfl
    | none =>
      simp only [listLookup_dictUpsert]
      by_cases h2 : kv.1 = k
      · simp [h2]
      · simp [h2]

lemma resolveDate_next_pd (env : Env) (st : UpdatesSt) (patch : String)
    (out : Option Int × UpdatesSt)
    (h : resolveDate env st patch = Except.ok out) :
    out.2.next_patchdate = st.next_patchdate := by
  simp only [resolveDate] at h
  split at h
  · simp only [Except.ok.injEq] at h
    subst h
    rfl
  · split at h
    · split at h
      · simp only [Except.ok.injEq] at h
        subst h
        rfl
      · simp only [Except.ok.injEq] at h
        subst h
        rfl
    · simp at h
    · simp at h
    · simp at h
    · simp at h

lemma check_expired_next_pd (env : Env) (st : UpdatesSt) (line : String) (days : Int)
    (out : Bool × Option Int × UpdatesSt)
    (h : check_expired env st line days = Except.ok out) :
    out.2.2.next_patchdate = st.next_patchdate := by
  simp only [check_expired] at h
  split at h
  · simp only [Except.ok.injEq] at h
    subst h
    rfl
  · split at h
    · simp at h
    · rename_i tok r pd st3 heq
      have h3 : (pd, st3).2.next_patchdate = st.next_patchdate :=
        resolveDate_next_pd _ _ _ _ heq
      split at h
      · split at h
        · simp only [Except.ok.injEq] at h
          subst h
          exact h3
        · simp only [Except.ok.injEq] at h
          subst h
          exact h3
      · simp only [Except.ok.injEq] at h
        subst h
        exact h3

lemma sevBlock_next_pd (env : Env) (line : String) (marker : List Char) (days : Int)
    (upd : UpdatesSt → String → BVal → UpdatesSt)
    (hupd : ∀ s k v, (upd s k v).next_patchdate = s.next_patchdate)
    (acc out : UpdatesSt × Option Bool × Option Int)
    (h : sevBlock env line marker days upd acc = Except.ok out) :
    out.1.next_patchdate = acc.1.next_patchdate := by
  simp only [sevBlock] at h
  split at h
  · simp only [Except.ok.injEq] at h
    subst h
    rfl
  · split at h
    · simp at h
    · rename_i g0 r ex xd st2 heq
      simp only [Except.ok.injEq] at h
      subst h
      simp only [hupd]
      exact check_expired_next_pd _ _ _ _ _ heq

lemma processLine_next_pd (env : Env) (st : UpdatesSt) (line : String)
    (out : UpdatesSt × Option Bool × Option Int)
    (h : processLine env st line = Except.ok out) :
    out.1.next_patchdate = nextPdUpd st.next_patchdate out.2.2 := by
  simp only [processLine] at h
  split at h
  · simp only [Except.ok.injEq] at h
    subst h
    rfl
  · split at h
    · simp only [Except.ok.injEq] at h
      subst h
      rfl
    · split at h
      · simp at h
      · rename_i a1 h1
        split at h
        · simp at h
        · rename_i a2 h2
          split at h
          · simp at h
          · rename_i a3 h3
            split at h
            · simp at h
            · rename_i a4 h4
              have e1 : a1.1.next_patchdate = st.next_patchdate :=
                sevBlock_next_pd env line critMarker 30 updCrit
                  (fun _ _ _ => rfl) (st, none, none) a1 h1
              have e2 : a2.1.next_patchdate = a1.1.next_patchdate :=
                sevBlock_next_pd env line impMarker 90 updImp
                  (fun _ _ _ => rfl) a1 a2 h2
              have e3 : a3.1.next_patchdate = a2.1.next_patchdate :=
                sevBlock_next_pd env line modMarker 90 updMod
                  (fun _ _ _ => rfl) a2 a3 h3
              have e4 : a4.1.next_patchdate = a3.1.next_patchdate :=
                sevBlock_next_pd env line lowMarker 90 updLow
                  (fun _ _ _ => rfl) a3 a4 h4
              simp only [Except.ok.injEq] at h
              subst h
              by_cases hx : a4.2.1 = some true
              · simp only [if_pos hx]
                simp only [e4, e3, e2, e1]
              · simp only [if_neg hx]
                simp only [e4, e3, e2, e1]

/-- C1: for a state whose inventory run was recorded (`rc >= 0`),
    `create_output` yields CRITICAL when the Critical bucket is non-empty,
    else WARNING when the expired flag is set and some non-Critical bucket
    is non-empty, else OK — i.e. Critical overrides the Degraded
    condition; with no recorded run the verdict is UNKNOWN regardless of
    bucket contents. -/
theorem create_output_precedence (st : UpdatesSt) :
    (0 ≤ st.rc →
      (create_output st).1 =
        (if 0 < st.critical.length then CRITICAL
         else if st.expired = true ∧
             (0 < st.important.length ∨ 0 < st.moderate.length ∨ 0 < st.low.length)
           then WARNING else OK)) ∧
    (st.rc < 0 → (create_output st).1 = UNKNOWN) := by
  constructor
  · intro h
    simp only [create_output, if_pos h]
  · intro h
    have h2 : ¬ 0 ≤ st.rc := by omega
    simp only [create_output, if_neg h2]

/-- C1 witness: the two aggregation scenarios of the specification —
    Critical empty, Important holding one expired entry gives WARNING;
    a non-empty Critical bucket gives CRITICAL. -/
theorem create_output_precedence_w :
    (create_output stWarn).1 = WARNING ∧ (create_output stCrit).1 = CRITICAL :=
  ⟨((create_output_precedence stWarn).1 (by decide)).trans (by decide),
   ((create_output_precedence stCrit).1 (by decide)).trans (by decide)⟩

/-- C2 (code bug): `update_cache` stores dates as `%Y-%m-%d` strings, but
    `clean_cache` parses the stored value back with the format
    `%Y-%m-%d %H:%M:%S`, so `strptime` raises `ValueError` on every entry
    the program itself wrote, `dx` defaults to `timedelta(0)`, and nothing
    is ever evicted: on a cache holding one entry 400 days old (day 1600,
    "now" being day 2000) and one 10 days old, compaction keeps both
    entries, while the claim — and the function's own docstring, "Delete
    patch information from cache file that is older than 1 year" —
    require the 400-day-old entry to be removed. -/
theorem clean_cache_format_mismatch :
    update_cache [] "pkgA" (some 1600) = [("pkgA", Stored.ymd 1600)] ∧
    strpYmdHms (Stored.ymd 1600) = none ∧
    clean_cache (2000 * 86400) [("pkgA", Stored.ymd 1600), ("pkgB", Stored.ymd 1990)] =
      [("pkgB", Stored.ymd 1990), ("pkgA", Stored.ymd 1600)] := by
  refine ⟨rfl, rfl, ?_⟩
  decide

/-- C6: over caches in the specified storage format (ISO date string or
    `None` sentinel), `check_cache` returns the denotation of the value of
    the first row in file order whose key equals the identifier — so on
    duplicate keys the earliest-written row wins — and reports not-found
    exactly when no row matches. -/
theorem check_cache_first_match (cache : Cache) (patch : String)
    (hwf : ∀ kv ∈ cache, storedWf kv.2 = true) :
    check_cache cache patch =
      (match listLookup cache patch with
        | some v => (true, storedDenote v)
        | none => (false, none)) := by
  induction cache with
  | nil => rfl
  | cons kv rest ih =>
    obtain ⟨k, v⟩ := kv
    have hv : storedWf v = true := hwf (k, v) (by simp)
    by_cases h : k = patch
    · simp only [check_cache, listLookup, h, if_pos rfl]
      cases v with
      | noneS => rfl
      | ymd d => rfl
      | ymdhms s => simp [storedWf] at hv
    · simp only [check_cache, listLookup]
      rw [if_neg h, if_neg h]
      exact ih (fun kv hm => hwf kv (by simp [hm]))

/-- C6 witness: a cache with two rows for the same key — the
    earliest-written one determines the returned date. -/
theorem check_cache_first_match_w :
    check_cache [("p", Stored.ymd 5), ("p", Stored.ymd 9)] "p" = (true, some 5) :=
  (check_cache_first_match [("p", Stored.ymd 5), ("p", Stored.ymd 9)] "p"
    (by decide)).trans (by decide)

/-- C10: the read phase of `clean_cache` folds the rows into a dict, so
    for every cache and key the surviving value is the last-written row's
    value, while `check_cache` returns the first-written one; compacting a
    cache with a duplicate key therefore changes what a subsequent lookup
    returns: with rows `p ↦ day 1900` then `p ↦ day 1990` (both recent at
    day 2000), lookup yields day 1900 before compaction and day 1990
    after. -/
theorem clean_cache_last_write_wins :
    (∀ (rows : Cache) (k : String),
      listLookup (readCacheDict rows) k = lastWritten rows k) ∧
    check_cache [("p", Stored.ymd 1900), ("p", Stored.ymd 1990)] "p" = (true, some 1900) ∧
    clean_cache (2000 * 86400) [("p", Stored.ymd 1900), ("p", Stored.ymd 1990)] =
      [("p", Stored.ymd 1990)] ∧
    check_cache (clean_cache (2000 * 86400)
        [("p", Stored.ymd 1900), ("p", Stored.ymd 1990)]) "p" = (true, some 1990) := by
  refine ⟨fun rows k => ?_, by decide, by decide, by decide⟩
  have h := listLookup_readFold rows ([] : Cache) k
  simp only [readCacheDict]
  rw [h]
  cases lastWritten rows k <;> rfl

/-- C3 (counterexample): the kernel filter runs before the always-critical
    check, so the line `Critical/Sec. kernel-chromium` — which matches the
    always-critical pattern (`chrom` occurs in it) — is discarded entirely
    when kernel filtering is enabled: the state is unchanged and the
    Critical bucket stays empty, although the claim requires the line to
    be classified Critical regardless of kernel filtering. -/
theorem always_critical_kernel_cex :
    (acFind (String.toList "Critical/Sec. kernel-chromium")).isSome = true ∧
    kernelMatch (String.toList "Critical/Sec. kernel-chromium") = true ∧
    processLine env0 (Updates.init [] true) "Critical/Sec. kernel-chromium" =
      Except.ok (Updates.init [] true, none, none) ∧
    (Updates.init [] true).critical = [] :=
  ⟨by decide, by decide, by decide, rfl⟩

/-- C3 (amended): for every line matching an always-critical package
    pattern that is not first discarded by the kernel filter (kernel
    filtering off, or the line does not match the kernel pattern), the
    classifier puts the line into the Critical bucket tagged with today's
    date string and skips SLA evaluation entirely — the rest of the state,
    in particular the cache and the call log, is untouched, whatever the
    cache state. -/
theorem always_critical_amended (env : Env) (st : UpdatesSt) (line : String)
    (g : List Char) (hac : acFind line.toList = some g)
    (hk : st.nokernel = false ∨ kernelMatch line.toList = false) :
    processLine env st line =
      Except.ok (updCrit st (String.mk (acPre ++ rstripWs g)) (BVal.strD env.today),
        none, none) := by
  have hcond : (kernelMatch line.toList && st.nokernel) = false := by
    cases hk with
    | inl h => rw [h, Bool.and_false]
    | inr h => rw [h, Bool.false_and]
  simp only [processLine, hcond, Bool.false_eq_true, if_false, hac]

/-- C3 amended-claim witness: with kernel filtering enabled and a
    non-empty cache, the line `Critical/Sec. firefox-100` (which does not
    match the kernel pattern) lands in the Critical bucket tagged with
    today's date string, and cache and call log are untouched. -/
theorem always_critical_amended_w :
    processLine env0 (Updates.init [("x", Stored.ymd 1)] true)
        "Critical/Sec. firefox-100" = Except.ok (stC3w, none, none) :=
  (always_critical_amended env0 (Updates.init [("x", Stored.ymd 1)] true)
    "Critical/Sec. firefox-100" ("firefox-100".toList) (by decide)
    (Or.inr (by decide))).trans (by decide)

/-- C4: whenever the advisory identifier is extractable and its release
    date `d` resolves — from the cache, or from a successful detail call
    whose output contains a timestamp — `check_expired` returns the
    expiration date `d + days` and the expired flag
    `today >= d + days`; in the external case the resolved date is also
    appended to the cache and the call is recorded. -/
theorem check_expired_correct (env : Env) (st : UpdatesSt) (line : String)
    (days : Int) (tok : List Char) (h1 : firstTok line.toList = some tok) :
    (∀ d, check_cache st.cache (String.mk tok) = (true, some d) →
      check_expired env st line days =
        Except.ok (decide (env.today ≥ d + days), some (d + days), st)) ∧
    (∀ out d, check_cache st.cache (String.mk tok) = (false, none) →
      env.detail (String.mk tok) = CmdOutcome.ok out →
      out.findSome? id = some d →
      check_expired env st line days =
        Except.ok (decide (env.today ≥ d + days), some (d + days),
          { st with rc := 0, calls := st.calls ++ [String.mk tok],
                    cache := update_cache st.cache (String.mk tok) (some d) })) := by
  constructor
  · intro d hd
    simp only [check_expired, h1, resolveDate, hd]
    by_cases hc : env.today ≥ d + days
    · rw [if_pos hc, decide_eq_true hc]
    · rw [if_neg hc, decide_eq_false hc]
  · intro out d hmiss hdet hfind
    simp only [check_expired, h1, resolveDate, hmiss, hdet, hfind]
    by_cases hc : env.today ≥ d + days
    · rw [if_pos hc, decide_eq_true hc]
    · rw [if_neg hc, decide_eq_false hc]

/-- C4 witness: the SLA boundary — with today = day 1000 and a 30-day
    SLA, a cached release date of day 970 (exactly 30 days ago) is
    expired with expiration day 1000, while day 971 (29 days ago) is not
    expired, with expiration day 1001. -/
theorem check_expired_correct_w :
    check_expired env1000 (Updates.init [("p", Stored.ymd 970)] false) "p x" 30 =
      Except.ok (true, some 1000, Updates.init [("p", Stored.ymd 970)] false) ∧
    check_expired env1000 (Updates.init [("p", Stored.ymd 971)] false) "p x" 30 =
      Except.ok (false, some 1001, Updates.init [("p", Stored.ymd 971)] false) :=
  ⟨((check_expired_correct env1000 (Updates.init [("p", Stored.ymd 970)] false)
      "p x" 30 ("p".toList) (by decide)).1 970 (by decide)).trans (by decide),
   ((check_expired_correct env1000 (Updates.init [("p", Stored.ymd 971)] false)
      "p x" 30 ("p".toList) (by decide)).1 971 (by decide)).trans (by decide)⟩

/-- C5: an advisory whose cache record is the explicit `None` marker makes
    `check_expired` return `(False, None)` with the state — cache, call
    log, everything — unchanged: no external detail call happens and no
    expiration date is contributed. -/
theorem cached_unknown_no_call (env : Env) (st : UpdatesSt) (line : String)
    (days : Int) (tok : List Char) (h1 : firstTok line.toList = some tok)
    (h2 : check_cache st.cache (String.mk tok) = (true, none)) :
    check_expired env st line days = Except.ok (false, none, st) := by
  simp only [check_expired, h1, resolveDate, h2]

/-- C5 witness: a cache holding the negative marker for `q` — evaluating
    the line `q x` calls nothing and contributes no date. -/
theorem cached_unknown_no_call_w :
    check_expired env0 (Updates.init [("q", Stored.noneS)] false) "q x" 90 =
      Except.ok (false, none, Updates.init [("q", Stored.noneS)] false) :=
  cached_unknown_no_call env0 (Updates.init [("q", Stored.noneS)] false) "q x" 90
    ("q".toList) (by decide) (by decide)

/-- C7 (counterexample): on the single inventory line
    `RHSA1 Critical/Sec. aaa Important/Sec. bbb`, which matches both the
    Critical and the Important pattern (the four severity checks are
    independent), with `RHSA1` cached at day 19800 and today = day 20000,
    the Critical check computes expiration day 19830 — stored in the
    Critical bucket — yet the reported `next_patchdate` is day 19890: the
    line-local `expiration_date` is overwritten by each matching check and
    only the last one feeds the running minimum, so `next_patchdate` is
    not the minimum of all non-none expiration dates computed in the run
    (19830 < 19890). -/
theorem next_patchdate_cex :
    Updates.run env2 (CmdOutcome.ok ["RHSA1 Critical/Sec. aaa Important/Sec. bbb"])
        (Updates.init [("RHSA1", Stored.ymd 19800)] false) = Except.ok stC7cex ∧
    stC7cex.critical = [("Critical/Sec. aaa Important/Sec. bbb", BVal.dateD 19830)] ∧
    stC7cex.next_patchdate = some 19890 ∧ (19830 : Int) < 19890 :=
  ⟨by decide, by decide, by decide, by decide⟩

/-- C7 (amended): `next_patchdate` is maintained as a running minimum
    updated once per processed line with that line's final
    `expiration_date` — the one computed by the last severity check that
    matched the line, earlier same-line checks being overwritten — and it
    is absent when no line contributes a date: over any run it equals the
    fold of this per-line minimum update. -/
theorem next_patchdate_running_min (env : Env) (lines : List String)
    (st stF : UpdatesSt) (xds : List (Option Int))
    (h : runXds env st lines = Except.ok (stF, xds)) :
    runLines env st lines = Except.ok stF ∧
    stF.next_patchdate = xds.foldl nextPdUpd st.next_patchdate := by
  induction lines generalizing st xds with
  | nil =>
    simp only [runXds, Except.ok.injEq, Prod.mk.injEq] at h
    obtain ⟨h1, h2⟩ := h
    subst h1
    subst h2
    exact ⟨rfl, rfl⟩
  | cons line rest ih =>
    simp only [runXds] at h
    split at h
    · simp at h
    · rename_i r1 st2 ex xd hpl
      split at h
      · simp at h
      · rename_i r2 stF2 xds2 hrest
        simp only [Except.ok.injEq, Prod.mk.injEq] at h
        obtain ⟨h1, h2⟩ := h
        subst h1
        subst h2
        obtain ⟨ihA, ihB⟩ := ih st2 xds2 hrest
        have hn : st2.next_patchdate = nextPdUpd st.next_patchdate xd :=
          processLine_next_pd env st line (st2, ex, xd) hpl
        constructor
        · simp only [runLines, hpl]
          exact ihA
        · rw [List.foldl_cons, ihB, hn]

/-- C7 amended-claim witness: one Important line with a cached date —
    the run reports exactly the fold of the single per-line date. -/
theorem next_patchdate_running_min_w :
    runLines env1000 (Updates.init [("A", Stored.ymd 100)] false)
        ["A Important/Sec. foo"] = Except.ok stC7w ∧
    stC7w.next_patchdate = [some 190].foldl nextPdUpd none :=
  next_patchdate_running_min env1000 ["A Important/Sec. foo"]
    (Updates.init [("A", Stored.ymd 100)] false) stC7w [some 190] (by decide)

/-- C8: a `TimeoutExpired` or a `ValueError` from an external command is
    fatal with the UNKNOWN verdict — for the inventory command `run` exits
    UNKNOWN at once, for the detail command `check_expired` exits UNKNOWN
    at once (no retry), and a line that exits aborts the rest of the run
    unprocessed; and when no inventory run has been recorded
    (`rc` still -1 from `__init__`), `create_output` reports UNKNOWN. -/
theorem fatal_timeout_unknown :
    (∀ (env : Env) (st : UpdatesSt),
      Updates.run env CmdOutcome.timeout st = Except.error UNKNOWN ∧
      Updates.run env CmdOutcome.valueErr st = Except.error UNKNOWN) ∧
    (∀ (env : Env) (st : UpdatesSt) (line : String) (days : Int) (tok : List Char),
      firstTok line.toList = some tok →
      check_cache st.cache (String.mk tok) = (false, none) →
      (env.detail (String.mk tok) = CmdOutcome.timeout ∨
        env.detail (String.mk tok) = CmdOutcome.valueErr) →
      check_expired env st line days = Except.error UNKNOWN) ∧
    (∀ (env : Env) (st : UpdatesSt) (line : String) (rest : List String) (e : Nat),
      processLine env st line = Except.error e →
      runLines env st (line :: rest) = Except.error e) ∧
    (∀ (rows : Cache) (nk : Bool), (create_output (Updates.init rows nk)).1 = UNKNOWN) := by
  refine ⟨fun env st => ⟨rfl, rfl⟩, ?_, ?_, ?_⟩
  · intro env st line days tok h1 h2 h3
    cases h3 with
    | inl h => simp only [check_expired, h1, resolveDate, h2, h]
    | inr h => simp only [check_expired, h1, resolveDate, h2, h]
  · intro env st line rest e h
    simp only [runLines, h]
  · intro rows nk
    rfl

/-- C8 witness: a timing-out inventory command, a timing-out detail call
    on an uncached Low line (aborting before the following line), and the
    initial state's UNKNOWN verdict. -/
theorem fatal_timeout_unknown_w :
    Updates.run envT CmdOutcome.timeout (Updates.init [] false) = Except.error UNKNOWN ∧
    check_expired envT (Updates.init [] false) "B x" 30 = Except.error UNKNOWN ∧
    runLines envT (Updates.init [] false) ["B Low/Sec. x", "later"] = Except.error UNKNOWN ∧
    (create_output (Updates.init [] false)).1 = UNKNOWN :=
  ⟨(fatal_timeout_unknown.1 envT (Updates.init [] false)).1,
   fatal_timeout_unknown.2.1 envT (Updates.init [] false) "B x" 30 ("B".toList)
     (by decide) (by decide) (Or.inl rfl),
   fatal_timeout_unknown.2.2.1 envT (Updates.init [] false) "B Low/Sec. x" ["later"]
     UNKNOWN (by decide),
   fatal_timeout_unknown.2.2.2 [] false⟩

lemma bvalKeyLe_ok_of_same (today : Int) (a b : BVal) (h : isStrB a = isStrB b) :
    ∃ r, bvalKeyLe today a b = Except.ok r := by
  cases a <;> cases b <;> first | exact ⟨_, rfl⟩ | simp [isStrB] at h

lemma bvalKeyLe_err_of_mixed (today : Int) (a b : BVal) (h : isStrB a ≠ isStrB b) :
    bvalKeyLe today a b = Except.error () := by
  cases a <;> cases b <;> first | rfl | exact absurd rfl h

lemma insertB_ok_same (today : Int) (k : Bool) (x : String × BVal)
    (l : List (String × BVal)) (hx : isStrB x.2 = k)
    (hl : ∀ y ∈ l, isStrB y.2 = k) :
    ∃ r, insertB today x l = Except.ok r ∧ (∀ y ∈ r, isStrB y.2 = k) ∧
      r.length = l.length + 1 := by
  induction l with
  | nil =>
    refine ⟨[x], rfl, ?_, rfl⟩
    intro y hy
    rcases List.mem_singleton.mp hy with rfl
    exact hx
  | cons z zs ih =>
    have hz : isStrB z.2 = k := hl z (by simp)
    obtain ⟨b, hb⟩ := bvalKeyLe_ok_of_same today x.2 z.2 (hx.trans hz.symm)
    cases b with
    | true =>
      refine ⟨x :: z :: zs, ?_, ?_, rfl⟩
      · simp only [insertB, hb]
        rfl
      · intro y hy
        rcases List.mem_cons.mp hy with rfl | hy2
        · exact hx
        · exact hl y hy2
    | false =>
      obtain ⟨r, hr1, hr2, hr3⟩ := ih (fun y hy => hl y (by simp [hy]))
      refine ⟨z :: r, ?_, ?_, ?_⟩
      · simp only [insertB, hb, hr1]
        rfl
      · intro y hy
        rcases List.mem_cons.mp hy with rfl | hy2
        · exact hz
        · exact hr2 y hy2
      · simp [hr3]

lemma sortB_ok_same (today : Int) (k : Bool) (l : List (String × BVal))
    (hl : ∀ y ∈ l, isStrB y.2 = k) :
    ∃ r, sortB today l = Except.ok r ∧ (∀ y ∈ r, isStrB y.2 = k) ∧
      r.length = l.length := by
  induction l with
  | nil => exact ⟨[], rfl, by simp, rfl⟩
  | cons x xs ih =>
    obtain ⟨s, hs1, hs2, hs3⟩ := ih (fun y hy => hl y (by simp [hy]))
    have hx : isStrB x.2 = k := hl x (by simp)
    obtain ⟨r, hr1, hr2, hr3⟩ := insertB_ok_same today k x s hx hs2
    refine ⟨r, ?_, hr2, ?_⟩
    · simp only [sortB, hs1, hr1]
    · simp [hr3, hs3]

lemma sortB_cons_err (today : Int) (x : String × BVal) (xs : List (String × BVal))
    (z : String × BVal) (hz : z ∈ xs)
    (hhom : ∀ u ∈ xs, ∀ v ∈ xs, isStrB u.2 = isStrB v.2)
    (hne : isStrB x.2 ≠ isStrB z.2) :
    sortB today (x :: xs) = Except.error () := by
  have hk : ∀ y ∈ xs, isStrB y.2 = isStrB z.2 := fun u hu => hhom u hu z hz
  obtain ⟨s, hs1, hs2, hs3⟩ := sortB_ok_same today (isStrB z.2) xs hk
  cases s with
  | nil =>
    exfalso
    cases xs with
    | nil => simp at hz
    | cons w ws => simp at hs3
  | cons w ws =>
    have hw : isStrB w.2 = isStrB z.2 := hs2 w (by simp)
    have hmix2 : isStrB x.2 ≠ isStrB w.2 := by
      rw [hw]
      exact hne
    simp only [sortB, hs1, insertB, bvalKeyLe_err_of_mixed today x.2 w.2 hmix2]

lemma sortB_mixed_err (today : Int) (l : List (String × BVal))
    (hmix : ∃ u ∈ l, ∃ v ∈ l, isStrB u.2 ≠ isStrB v.2) :
    sortB today l = Except.error () := by
  induction l with
  | nil =>
    obtain ⟨u, hu, _⟩ := hmix
    simp at hu
  | cons x xs ih =>
    by_cases hxs : ∃ u ∈ xs, ∃ v ∈ xs, isStrB u.2 ≠ isStrB v.2
    · have herr := ih hxs
      simp only [sortB, herr]
    · push_neg at hxs
      obtain ⟨u, hu, v, hv, huv⟩ := hmix
      rcases List.mem_cons.mp hu with rfl | hu2
      · rcases List.mem_cons.mp hv with rfl | hv2
        · exact absurd rfl huv
        · exact sortB_cons_err today u xs v hv2 hxs huv
      · rcases List.mem_cons.mp hv with rfl | hv2
        · exact sortB_cons_err today v xs u hu2 hxs (Ne.symm huv)
        · exact absurd (hxs u hu2 v hv2) huv

/-- C9: the always-critical path stores a date string while the SLA paths
    store a date object (or `None`), so whenever the Critical bucket holds
    both an always-critical entry and an SLA-evaluated entry with a
    resolved date, the verbose listing's `sorted` call compares a `str`
    with a `datetime.date` and raises `TypeError` instead of producing
    output — the rendering step is not total. -/
theorem verbose_mixed_types_raise (today : Int) (st : UpdatesSt)
    (h1 : ∃ kv ∈ st.critical, ∃ d, kv.2 = BVal.strD d)
    (h2 : ∃ kv ∈ st.critical, ∃ d, kv.2 = BVal.dateD d) :
    verboseOut today st = Except.error () := by
  obtain ⟨a, ha, da, hda⟩ := h1
  obtain ⟨b, hb, db, hdb⟩ := h2
  have hmix : ∃ u ∈ st.critical, ∃ v ∈ st.critical, isStrB u.2 ≠ isStrB v.2 :=
    ⟨a, ha, b, hb, by rw [hda, hdb]; simp [isStrB]⟩
  have herr := sortB_mixed_err today st.critical hmix
  simp only [verboseOut, herr]

/-- C9 witness: a Critical bucket holding one always-critical date-string
    entry and one SLA entry with expiration day 30 — the verbose listing
    raises. -/
theorem verbose_mixed_types_raise_w :
    verboseOut 0 stC9w = Except.error () :=
  verbose_mixed_types_raise 0 stC9w
    ⟨("Critical/Sec.  firefox-1", BVal.strD 0), by simp [stC9w], 0, rfl⟩
    ⟨("Critical/Sec. foo", BVal.dateD 30), by simp [stC9w], 30, rfl⟩

end SecUpd
